import Mathlib

/-!
Shallow embedding of the stock-recommender signal pipeline core
(`backend/services/indicator_service.go`, `backend/services/signal_generator.go`,
`backend/workers/queue_worker.go`) and proofs of the specification claims.

Modelling conventions:
* Go `float64` arithmetic is modelled exactly over `ℚ`.  `math.Sqrt` is the one
  operation with no exact rational counterpart; it is threaded through as an
  abstract parameter `sqrt : ℚ → ℚ` and the theorems assume only `sqrt 0 = 0`
  where the value actually matters.
* Go `time.Time` timestamps are modelled as `ℕ` (`Before` becomes `<`).
* DB reads are modelled by passing the fetched rows as an argument; DB writes
  (`db.Create`) are assumed to succeed — an `Except.ok` result of an
  orchestration function means the signal was persisted, an `Except.error`
  result means the cycle ended with an error and nothing was persisted.
* The remote AI call `AIClient.GetDecision` is a network call; its outcome is
  an oracle argument of type `Except String AIDecisionResponse`.
* The JSON string produced by `reasonsToJSON` is modelled as the list of
  reason strings it encodes; `CreatedAt` wall-clock fields are omitted.
-/

namespace StockRec

/-- Model of `models.StockPrice` (fields as used by the services: symbol,
market, OHLC prices, volume, timestamp).  `CreatedAt` is omitted. -/
structure StockPrice where
  symbol : String
  market : String
  openPrice : ℚ
  highPrice : ℚ
  lowPrice : ℚ
  closePrice : ℚ
  volume : ℤ
  timestamp : ℕ
  deriving DecidableEq, Repr, Inhabited

/-- Model of `services.IndicatorResult` from `indicator_service.go`. -/
structure IndicatorResult where
  rsi : ℚ
  macd : ℚ
  macdSignal : ℚ
  macdHistogram : ℚ
  sma20 : ℚ
  sma50 : ℚ
  ema12 : ℚ
  ema26 : ℚ
  bollingerUpper : ℚ
  bollingerLower : ℚ
  bollingerMid : ℚ
  stochasticK : ℚ
  stochasticD : ℚ
  williamsR : ℚ
  atr : ℚ
  obv : ℚ
  deriving DecidableEq, Repr, Inhabited

/-- Model of `models.AIDecisionResponse` (fields as used: `Decision`,
`Confidence`, `Reasoning`). -/
structure AIDecisionResponse where
  decision : String
  confidence : ℚ
  reasoning : List String
  deriving DecidableEq, Repr, Inhabited

/-- Model of `models.TradingSignal` (fields as written by the two signal
paths).  `Reasons` holds the list encoded by `reasonsToJSON`. -/
structure TradingSignal where
  symbol : String
  signalType : String
  strength : ℚ
  confidence : ℚ
  reasons : List String
  source : String
  deriving DecidableEq, Repr, Inhabited

/-- `IndicatorService.average`: `0` on an empty list, else sum divided by
length. -/
def average (values : List ℚ) : ℚ :=
  if values.length = 0 then 0 else values.sum / (values.length : ℚ)

/-- `IndicatorService.standardDeviation`: square root of the population
variance of `values` around `mean`.  `math.Sqrt` is the abstract `sqrt`. -/
def standardDeviation (sqrt : ℚ → ℚ) (values : List ℚ) (mean : ℚ) : ℚ :=
  if values.length = 0 then 0
  else sqrt ((values.map (fun v => (v - mean) * (v - mean))).sum / (values.length : ℚ))

/-- `IndicatorService.max`: `0` on an empty list, else the running maximum
starting from the first element. -/
def maxList (values : List ℚ) : ℚ :=
  match values with
  | [] => 0
  | v :: rest => rest.foldl (fun m x => if x > m then x else m) v

/-- `IndicatorService.min`: `0` on an empty list, else the running minimum
starting from the first element. -/
def minList (values : List ℚ) : ℚ :=
  match values with
  | [] => 0
  | v :: rest => rest.foldl (fun m x => if x < m then x else m) v

/-- Go slicing `xs[len(xs)-n:]` (the trailing `n` elements); callers always
guard `n ≤ len(xs)`. -/
def lastN (n : ℕ) (xs : List ℚ) : List ℚ :=
  xs.drop (xs.length - n)

/-- The consecutive close-price changes `closes[i] - closes[i-1]` built by the
loop in `calculateRSI`. -/
def rsiChanges (closes : List ℚ) : List ℚ :=
  (closes.zip closes.tail).map (fun p => p.2 - p.1)

/-- The `gains` list of `calculateRSI`: the positive changes, `0` otherwise. -/
def rsiGains (closes : List ℚ) : List ℚ :=
  (rsiChanges closes).map (fun c => if c > 0 then c else 0)

/-- The `losses` list of `calculateRSI`: the negated non-positive changes,
`0` otherwise. -/
def rsiLosses (closes : List ℚ) : List ℚ :=
  (rsiChanges closes).map (fun c => if c > 0 then 0 else -c)

/-- `avgGain` of `calculateRSI`: average of the trailing `period` gains. -/
def rsiAvgGain (closes : List ℚ) (period : ℕ) : ℚ :=
  average (lastN period (rsiGains closes))

/-- `avgLoss` of `calculateRSI`: average of the trailing `period` losses. -/
def rsiAvgLoss (closes : List ℚ) (period : ℕ) : ℚ :=
  average (lastN period (rsiLosses closes))

/-- `IndicatorService.calculateRSI`. -/
def calculateRSI (closes : List ℚ) (period : ℕ) : ℚ :=
  if closes.length < period + 1 then 50
  else if (rsiGains closes).length < period then 50
  else if rsiAvgLoss closes period = 0 then 100
  else
    let rs := rsiAvgGain closes period / rsiAvgLoss closes period
    100 - 100 / (1 + rs)

/-- `IndicatorService.calculateEMA`.  Go reads `closes[len(closes)-1]` and
`closes[0]`, which panic on an empty slice; the model returns the defaults
`getLastD 0` / `headD 0` there and the theorems assume nonemptiness. -/
def calculateEMA (closes : List ℚ) (period : ℕ) : ℚ :=
  if closes.length < period then closes.getLastD 0
  else
    let multiplier : ℚ := 2 / ((period : ℚ) + 1)
    closes.tail.foldl (fun ema c => c * multiplier + ema * (1 - multiplier)) (closes.headD 0)

/-- `IndicatorService.calculateSMA`. -/
def calculateSMA (closes : List ℚ) (period : ℕ) : ℚ :=
  if closes.length < period then closes.getLastD 0
  else average (lastN period closes)

/-- `IndicatorService.calculateMACD`: returns `(macd, signal, histogram)`
where the signal line is the `macd * 0.8` shortcut of the source. -/
def calculateMACD (closes : List ℚ) : ℚ × ℚ × ℚ :=
  if closes.length < 26 then (0, 0, 0)
  else
    let macd := calculateEMA closes 12 - calculateEMA closes 26
    let signal := macd * 0.8
    (macd, signal, macd - signal)

/-- `IndicatorService.calculateBollingerBands`: returns
`(upper, mid, lower)` as assigned at the call site. -/
def calculateBollingerBands (sqrt : ℚ → ℚ) (closes : List ℚ) (period : ℕ)
    (multiplier : ℚ) : ℚ × ℚ × ℚ :=
  if closes.length < period then
    let price := closes.getLastD 0
    (price, price, price)
  else
    let recent := lastN period closes
    let sma := average recent
    let stdDev := standardDeviation sqrt recent sma
    (sma + multiplier * stdDev, sma, sma - multiplier * stdDev)

/-- `IndicatorService.calculateStochastic`: returns `(%K, %D)` with the
`%D = %K * 0.7 + 30` shortcut of the source. -/
def calculateStochastic (highs lows closes : List ℚ) (kPeriod dPeriod : ℕ) : ℚ × ℚ :=
  if closes.length < kPeriod then (50, 50)
  else
    let recentHighs := lastN kPeriod highs
    let recentLows := lastN kPeriod lows
    let currentClose := closes.getLastD 0
    let highestHigh := maxList recentHighs
    let lowestLow := minList recentLows
    let k := if highestHigh - lowestLow ≠ 0
      then (currentClose - lowestLow) / (highestHigh - lowestLow) * 100
      else 50
    (k, k * 0.7 + 30)

/-- `IndicatorService.calculateWilliamsR`. -/
def calculateWilliamsR (highs lows closes : List ℚ) (period : ℕ) : ℚ :=
  if closes.length < period then -50
  else
    let recentHighs := lastN period highs
    let recentLows := lastN period lows
    let currentClose := closes.getLastD 0
    let highestHigh := maxList recentHighs
    let lowestLow := minList recentLows
    if highestHigh - lowestLow ≠ 0
    then (highestHigh - currentClose) / (highestHigh - lowestLow) * (-100)
    else -50

/-- `IndicatorService.calculateATR`.  The loop pairs `highs[i]`, `lows[i]`
with `closes[i-1]` for `i = 1 ..`; modelled by zipping the tails of the
high/low lists against the closes. -/
def calculateATR (highs lows closes : List ℚ) (period : ℕ) : ℚ :=
  if closes.length < period + 1 then 1
  else
    let trueRanges := ((highs.tail.zip lows.tail).zip closes).map
      (fun p => max (p.1.1 - p.1.2) (max (abs (p.1.1 - p.2)) (abs (p.1.2 - p.2))))
    if trueRanges.length < period then average trueRanges
    else average (lastN period trueRanges)

/-- `IndicatorService.calculateOBV`: cumulative volume, added on up-days,
subtracted on down-days, unchanged on flat days. -/
def calculateOBV (closes volumes : List ℚ) : ℚ :=
  if closes.length < 2 then 0
  else
    ((closes.zip closes.tail).zip volumes.tail).foldl
      (fun obv p =>
        if p.1.2 > p.1.1 then obv + p.2
        else if p.1.2 < p.1.1 then obv - p.2
        else obv) 0

/-- The comparison `prices[i].Timestamp.Before(prices[j].Timestamp)` given to
`sort.Slice`, as the corresponding nondecreasing order on timestamps. -/
def priceOrder (a b : StockPrice) : Prop :=
  a.timestamp ≤ b.timestamp

instance : DecidableRel priceOrder :=
  fun a b => Nat.decLe a.timestamp b.timestamp

instance : IsTotal StockPrice priceOrder :=
  ⟨fun a b => Nat.le_total a.timestamp b.timestamp⟩

instance : IsTrans StockPrice priceOrder :=
  ⟨fun _ _ _ => Nat.le_trans⟩

/-- `IndicatorService.CalculateAll`.  Go sorts the caller's slice **in
place** (`sort.Slice`, an unspecified unstable sort, modelled by insertion
sort by the same order) before computing, so the model returns both the
state of the caller's slice after the call (first component) and the
computed result (second component, `none` for the insufficient-data `nil`
return). -/
def CalculateAll (sqrt : ℚ → ℚ) (prices : List StockPrice) :
    List StockPrice × Option IndicatorResult :=
  if prices.length < 50 then (prices, none)
  else
    let sorted := prices.insertionSort priceOrder
    let closes := sorted.map (fun p => p.closePrice)
    let highs := sorted.map (fun p => p.highPrice)
    let lows := sorted.map (fun p => p.lowPrice)
    let volumes := sorted.map (fun p => (p.volume : ℚ))
    let m := calculateMACD closes
    let bb := calculateBollingerBands sqrt closes 20 2
    let st := calculateStochastic highs lows closes 14 3
    (sorted, some
      { rsi := calculateRSI closes 14
        macd := m.1
        macdSignal := m.2.1
        macdHistogram := m.2.2
        sma20 := calculateSMA closes 20
        sma50 := calculateSMA closes 50
        ema12 := calculateEMA closes 12
        ema26 := calculateEMA closes 26
        bollingerUpper := bb.1
        bollingerMid := bb.2.1
        bollingerLower := bb.2.2
        stochasticK := st.1
        stochasticD := st.2
        williamsR := calculateWilliamsR highs lows closes 14
        atr := calculateATR highs lows closes 14
        obv := calculateOBV closes volumes })

/-- The `indicatorMap` built by `SignalGeneratorService.GenerateSignal`
(step 3) and `QueueWorker.convertIndicatorsToMap`: indicator name to value. -/
def indicatorMap (ind : IndicatorResult) : List (String × ℚ) :=
  [("rsi", ind.rsi), ("macd", ind.macd), ("macd_signal", ind.macdSignal),
   ("macd_histogram", ind.macdHistogram), ("sma_20", ind.sma20),
   ("sma_50", ind.sma50), ("ema_12", ind.ema12), ("ema_26", ind.ema26),
   ("bollinger_upper", ind.bollingerUpper), ("bollinger_lower", ind.bollingerLower),
   ("bollinger_mid", ind.bollingerMid), ("stochastic_k", ind.stochasticK),
   ("stochastic_d", ind.stochasticD), ("williams_r", ind.williamsR),
   ("atr", ind.atr), ("obv", ind.obv)]

/-- Go map read `m[k]` (zero value when the key is missing). -/
def mapGet (m : List (String × ℚ)) (k : String) : ℚ :=
  (m.lookup k).getD 0

/-- Go comma-ok map read `v, ok := m[k]`. -/
def mapGetOk (m : List (String × ℚ)) (k : String) : Option ℚ :=
  m.lookup k

/-- `SignalGeneratorService.generateRuleBasedSignal`, with the database
append assumed to succeed (it only fails on a store error).  The imperative
`buySignals` / `sellSignals` / `reasons` accumulators are threaded as a
`(buySignals, sellSignals, reasons)` state through the three vote blocks. -/
def generateRuleBasedSignal (symbol market : String)
    (indicators : List (String × ℚ)) : TradingSignal :=
  let rsi := mapGet indicators "rsi"
  let macd := mapGet indicators "macd"
  let sma20 := mapGet indicators "sma_20"
  let sma50 := mapGet indicators "sma_50"
  let st1 : ℕ × ℕ × List String :=
    if rsi < 30 then (1, 0, ["RSI oversold"])
    else if rsi > 70 then (0, 1, ["RSI overbought"])
    else (0, 0, [])
  let st2 : ℕ × ℕ × List String :=
    if macd > 0 then (st1.1 + 1, st1.2.1, st1.2.2 ++ ["MACD positive"])
    else (st1.1, st1.2.1 + 1, st1.2.2 ++ ["MACD negative"])
  let st3 : ℕ × ℕ × List String :=
    if sma20 > sma50 then (st2.1 + 1, st2.2.1, st2.2.2 ++ ["SMA20 > SMA50"])
    else (st2.1, st2.2.1 + 1, st2.2.2 ++ ["SMA20 < SMA50"])
  let buySignals := st3.1
  let sellSignals := st3.2.1
  let decision :=
    if buySignals > sellSignals then "BUY"
    else if sellSignals > buySignals then "SELL"
    else "HOLD"
  let confidence : ℚ :=
    if buySignals > sellSignals then 0.6
    else if sellSignals > buySignals then 0.6
    else 0.5
  { symbol := symbol
    signalType := decision
    strength := confidence * 0.8
    confidence := confidence
    reasons := "AI service unavailable, using rule-based analysis" :: st3.2.2
    source := "RULE" }

/-- `SignalGeneratorService.calculateStrength`: the AI confidence adjusted by
Bollinger band width and ATR, clamped above at `1`. -/
def calculateStrength (confidence : ℚ) (indicators : List (String × ℚ)) : ℚ :=
  let s1 := confidence
  let s2 :=
    match mapGetOk indicators "bollinger_upper", mapGetOk indicators "bollinger_lower" with
    | some upper, some lower => if upper - lower > 0 then s1 + 0.1 else s1
    | _, _ => s1
  let s3 :=
    match mapGetOk indicators "atr" with
    | some atr => if atr > 1000 then s2 + 0.05 else s2
    | none => s2
  if s3 > 1 then 1 else s3

/-- `SignalGeneratorService.GenerateSignal`, for one instrument.  The price
rows fetched from the database are the `prices` argument (DB fetch assumed to
succeed); the remote `aiClient.GetDecision` outcome is the `aiOutcome`
oracle; the `db.Create` appends are assumed to succeed, so an `Except.ok`
result is exactly a persisted signal and an `Except.error` result is a cycle
that persisted nothing. -/
def generateSignal (sqrt : ℚ → ℚ) (symbol market : String)
    (prices : List StockPrice) (aiOutcome : Except String AIDecisionResponse) :
    Except String TradingSignal :=
  if prices.length < 20 then
    Except.error ("insufficient price data for " ++ symbol)
  else
    match (CalculateAll sqrt prices).2 with
    | none => Except.error ("failed to calculate indicators for " ++ symbol)
    | some indicators =>
      let imap := indicatorMap indicators
      match aiOutcome with
      | Except.error _ => Except.ok (generateRuleBasedSignal symbol market imap)
      | Except.ok aiResponse =>
        Except.ok
          { symbol := symbol
            signalType := aiResponse.decision
            strength := calculateStrength aiResponse.confidence imap
            confidence := aiResponse.confidence
            reasons := aiResponse.reasoning
            source := "AI" }

/-- `QueueWorker.calculateSignalStrength`: a step mapping from confidence to
strength. -/
def calculateSignalStrength (confidence : ℚ) : ℚ :=
  if confidence > 0.8 then 0.9
  else if confidence > 0.6 then 0.7
  else if confidence > 0.4 then 0.5
  else 0.3

/-- `QueueWorker.handleAIRequest`.  `latestPrice` is the result of the
latest-price DB read (`none` models the fetch error), `indicatorData` the
result of the `message.Data` type assertion (`none` models the malformed
payload, which Go acknowledges with `return nil`), `aiOutcome` the remote
call.  An `Except.ok (some s)` result is a persisted signal; `Except.ok
none` is an acknowledged cycle with no signal; `Except.error` is a failed
cycle left to broker redelivery, with no signal. -/
def handleAIRequest (symbol market : String) (latestPrice : Option StockPrice)
    (indicatorData : Option (List (String × ℚ)))
    (aiOutcome : Except String AIDecisionResponse) :
    Except String (Option TradingSignal) :=
  match latestPrice with
  | none => Except.error ("failed to get latest price for " ++ symbol)
  | some _ =>
    match indicatorData with
    | none => Except.ok none
    | some _ =>
      match aiOutcome with
      | Except.error e => Except.error e
      | Except.ok decision =>
        Except.ok (some
          { symbol := symbol
            signalType := decision.decision
            strength := calculateSignalStrength decision.confidence
            confidence := decision.confidence
            reasons := decision.reasoning
            source := "AI" })

/-- The vote count described by the specification for the rule source: one
bullish vote each for RSI < 30, MACD > 0 and SMA20 > SMA50. -/
def bullishVotes (indicators : List (String × ℚ)) : ℕ :=
  (if mapGet indicators "rsi" < 30 then 1 else 0)
    + (if mapGet indicators "macd" > 0 then 1 else 0)
    + (if mapGet indicators "sma_20" > mapGet indicators "sma_50" then 1 else 0)

/-- The vote count described by the specification for the rule source: one
bearish vote each for RSI > 70, MACD ≤ 0 and SMA20 ≤ SMA50. -/
def bearishVotes (indicators : List (String × ℚ)) : ℕ :=
  (if mapGet indicators "rsi" > 70 then 1 else 0)
    + (if ¬ mapGet indicators "macd" > 0 then 1 else 0)
    + (if ¬ mapGet indicators "sma_20" > mapGet indicators "sma_50" then 1 else 0)

/-! ## Concrete inputs for the closed instances -/

/-- A concrete model of `math.Sqrt` for closed instances; only its value at
`0`, where it agrees with the real square root, is ever used. -/
def sqrtZero : ℚ → ℚ := fun _ => 0

/-- A flat price bar (close 100) used by the closed instances. -/
def flatPrice : StockPrice :=
  { symbol := "A", market := "KR", openPrice := 100, highPrice := 100,
    lowPrice := 100, closePrice := 100, volume := 1000, timestamp := 0 }

/-- Fifty identical flat bars. -/
def flat50 : List StockPrice := List.replicate 50 flatPrice

/-- Ten identical flat bars (an insufficient window). -/
def short10 : List StockPrice := List.replicate 10 flatPrice

/-- Thirty identical flat bars: enough for the 20-row guard, not for the
indicator engine. -/
def mid30 : List StockPrice := List.replicate 30 flatPrice

/-- A flat bar with a later timestamp, placed out of order at the head. -/
def pLate : StockPrice :=
  { symbol := "A", market := "KR", openPrice := 100, highPrice := 100,
    lowPrice := 100, closePrice := 100, volume := 1000, timestamp := 5 }

/-- A 50-element slice that is not in ascending timestamp order. -/
def unsorted50 : List StockPrice := pLate :: List.replicate 49 flatPrice

/-- A strongly bullish indicator map used by the closed instances. -/
def demoMap : List (String × ℚ) :=
  [("rsi", 20), ("macd", 1), ("sma_20", 2), ("sma_50", 1)]

/-- The indicator set computed for `flat50`, extracted for closed
instances. -/
def flatInd : IndicatorResult := ((CalculateAll sqrtZero flat50).2).getD default

/-! ## Helper lemmas -/

theorem average_nonneg (l : List ℚ) (h : ∀ x ∈ l, 0 ≤ x) : 0 ≤ average l := by
  unfold average
  split
  · exact le_refl 0
  · exact div_nonneg (List.sum_nonneg h) (Nat.cast_nonneg _)

theorem average_replicate (n : ℕ) (c : ℚ) (hn : n ≠ 0) :
    average (List.replicate n c) = c := by
  unfold average
  rw [List.length_replicate, List.sum_replicate, if_neg hn, nsmul_eq_mul,
    mul_comm, mul_div_assoc, div_self (Nat.cast_ne_zero.mpr hn), mul_one]

theorem lastN_replicate (k n : ℕ) (c : ℚ) (h : k ≤ n) :
    lastN k (List.replicate n c) = List.replicate k c := by
  unfold lastN
  rw [List.length_replicate, List.drop_replicate, Nat.sub_sub_self h]

theorem lastN_subset (n : ℕ) (xs : List ℚ) (x : ℚ) (h : x ∈ lastN n xs) : x ∈ xs :=
  List.mem_of_mem_drop h

theorem rsiChanges_replicate (n : ℕ) (c : ℚ) :
    rsiChanges (List.replicate n c) = List.replicate (n - 1) 0 := by
  unfold rsiChanges
  rw [List.tail_replicate, List.zip_replicate, List.map_replicate]
  have hmin : n ⊓ (n - 1) = n - 1 := min_eq_right (Nat.sub_le n 1)
  rw [hmin]
  simp

theorem rsiLosses_replicate (n : ℕ) (c : ℚ) :
    rsiLosses (List.replicate n c) = List.replicate (n - 1) 0 := by
  unfold rsiLosses
  rw [rsiChanges_replicate, List.map_replicate]
  simp

theorem rsiGains_length (closes : List ℚ) :
    (rsiGains closes).length = closes.length - 1 := by
  unfold rsiGains rsiChanges
  rw [List.length_map, List.length_map, List.length_zip, List.length_tail]
  omega

theorem rsiAvgLoss_replicate (n : ℕ) (c : ℚ) (h : 15 ≤ n) :
    rsiAvgLoss (List.replicate n c) 14 = 0 := by
  unfold rsiAvgLoss
  rw [rsiLosses_replicate, lastN_replicate 14 (n - 1) 0 (by omega),
    average_replicate 14 0 (by omega)]

theorem calculateRSI_replicate (n : ℕ) (c : ℚ) (h : 15 ≤ n) :
    calculateRSI (List.replicate n c) 14 = 100 := by
  unfold calculateRSI
  rw [if_neg (by rw [List.length_replicate]; omega),
    if_neg (by rw [rsiGains_length, List.length_replicate]; omega),
    if_pos (rsiAvgLoss_replicate n c h)]

theorem calculateSMA_replicate (n period : ℕ) (c : ℚ) (hp : period ≠ 0)
    (h : period ≤ n) : calculateSMA (List.replicate n c) period = c := by
  unfold calculateSMA
  rw [if_neg (by rw [List.length_replicate]; omega), lastN_replicate period n c h,
    average_replicate period c hp]

theorem standardDeviation_replicate (sqrt : ℚ → ℚ) (hs : sqrt 0 = 0) (n : ℕ)
    (c : ℚ) (hn : n ≠ 0) :
    standardDeviation sqrt (List.replicate n c) c = 0 := by
  unfold standardDeviation
  rw [List.length_replicate, List.map_replicate, List.sum_replicate, if_neg hn]
  simp [hs]

theorem calculateBollingerBands_replicate (sqrt : ℚ → ℚ) (hs : sqrt 0 = 0)
    (n period : ℕ) (c m : ℚ) (hp : period ≠ 0) (h : period ≤ n) :
    calculateBollingerBands sqrt (List.replicate n c) period m = (c, c, c) := by
  unfold calculateBollingerBands
  rw [if_neg (by rw [List.length_replicate]; omega)]
  simp only [lastN_replicate period n c h, average_replicate period c hp,
    standardDeviation_replicate sqrt hs period c hp]
  norm_num

theorem emaFold_const (m c : ℚ) (k : ℕ) :
    List.foldl (fun ema x => x * m + ema * (1 - m)) c (List.replicate k c) = c := by
  induction k with
  | zero => rfl
  | succ k ih =>
    rw [List.replicate_succ, List.foldl_cons]
    have hstep : c * m + c * (1 - m) = c := by ring
    rw [hstep, ih]

theorem calculateAll_eq_none_iff (sqrt : ℚ → ℚ) (prices : List StockPrice) :
    (CalculateAll sqrt prices).2 = none ↔ prices.length < 50 := by
  unfold CalculateAll
  split_ifs with h <;> simp [h]

/-! ## Claim theorems -/

/-- C2: `CalculateAll` returns the insufficient-data sentinel `nil` exactly
on inputs shorter than 50 price points; on inputs of length at least 50 it
returns a populated `IndicatorResult`. -/
theorem C2_insufficient_data_sentinel (sqrt : ℚ → ℚ) (prices : List StockPrice) :
    (prices.length < 50 → (CalculateAll sqrt prices).2 = none) ∧
    (50 ≤ prices.length → ∃ r, (CalculateAll sqrt prices).2 = some r) := by
  constructor
  · intro h
    exact (calculateAll_eq_none_iff sqrt prices).mpr h
  · intro h
    rcases ho : (CalculateAll sqrt prices).2 with _ | r
    · exact absurd ((calculateAll_eq_none_iff sqrt prices).mp ho) (by omega)
    · exact ⟨r, rfl⟩

theorem C2_insufficient_data_sentinel_witness :
    (CalculateAll sqrtZero short10).2 = none ∧
    ∃ r, (CalculateAll sqrtZero flat50).2 = some r :=
  ⟨(C2_insufficient_data_sentinel sqrtZero short10).1 (by decide),
   (C2_insufficient_data_sentinel sqrtZero flat50).2 (by decide)⟩

/-- C4 (amended): `CalculateAll` computes over the ascending-timestamp
ordering, but it sorts the caller's slice in place: after the call the
caller's slice holds the same elements as a permutation — sorted ascending
by timestamp when the length is at least 50, untouched otherwise — not
necessarily in the original order. -/
theorem C4_slice_sorted_in_place (sqrt : ℚ → ℚ) (prices : List StockPrice) :
    ((CalculateAll sqrt prices).1.Perm prices) ∧
    (prices.length < 50 → (CalculateAll sqrt prices).1 = prices) ∧
    (50 ≤ prices.length → (CalculateAll sqrt prices).1.Sorted priceOrder) := by
  unfold CalculateAll
  split_ifs with h
  · exact ⟨List.Perm.refl _, fun _ => rfl, fun hc => absurd hc (by omega)⟩
  · refine ⟨?_, fun hc => absurd hc h, fun _ => ?_⟩
    · simpa using List.perm_insertionSort priceOrder prices
    · simpa using List.sorted_insertionSort priceOrder prices

theorem C4_counterexample : (CalculateAll sqrtZero unsorted50).1 ≠ unsorted50 := by
  decide

theorem C4_slice_sorted_in_place_witness :
    (CalculateAll sqrtZero flat50).1.Perm flat50 ∧
    (CalculateAll sqrtZero flat50).1.Sorted priceOrder :=
  ⟨(C4_slice_sorted_in_place sqrtZero flat50).1,
   (C4_slice_sorted_in_place sqrtZero flat50).2.2 (by decide)⟩

/-- C9: a constant close-price series of length at least the period is a
fixed point of the EMA recursion, and a nonempty series shorter than the
period degrades to its latest (last) price. -/
theorem C9_ema_constant_fixed_point (period : ℕ) :
    (∀ (c : ℚ) (n : ℕ), 1 ≤ period → period ≤ n →
      calculateEMA (List.replicate n c) period = c) ∧
    (∀ (closes : List ℚ) (h : closes ≠ []), closes.length < period →
      calculateEMA closes period = closes.getLast h) := by
  constructor
  · intro c n hp hn
    unfold calculateEMA
    rw [if_neg (by rw [List.length_replicate]; omega)]
    obtain ⟨k, rfl⟩ : ∃ k, n = k + 1 := ⟨n - 1, by omega⟩
    rw [List.replicate_succ, List.tail_cons, List.headD_cons]
    exact emaFold_const (2 / ((period : ℚ) + 1)) c k
  · intro closes h hshort
    unfold calculateEMA
    rw [if_pos hshort, List.getLastD_eq_getLast?, List.getLast?_eq_getLast closes h,
      Option.getD_some]

theorem C9_ema_constant_fixed_point_witness :
    calculateEMA (List.replicate 5 (7 : ℚ)) 3 = 7 ∧
    calculateEMA [(1 : ℚ), 2] 5 = 2 := by
  constructor
  · exact (C9_ema_constant_fixed_point 3).1 7 5 (by decide) (by decide)
  · have h := (C9_ema_constant_fixed_point 5).2 [(1 : ℚ), 2] (by decide) (by decide)
    simpa using h

theorem closes_of_const (prices : List StockPrice) (c : ℚ)
    (hcl : ∀ p ∈ prices, p.closePrice = c) :
    (prices.insertionSort priceOrder).map (fun p => p.closePrice)
      = List.replicate prices.length c := by
  have hperm := List.perm_insertionSort priceOrder prices
  have hmem : ∀ x ∈ (prices.insertionSort priceOrder).map (fun p => p.closePrice),
      x = c := by
    intro x hx
    obtain ⟨p, hp, rfl⟩ := List.mem_map.mp hx
    exact hcl p (hperm.mem_iff.mp hp)
  have hrep := List.eq_replicate_of_mem hmem
  rwa [List.length_map, hperm.length_eq] at hrep

theorem calculateAll_const_closes (sqrt : ℚ → ℚ) (hs : sqrt 0 = 0)
    (prices : List StockPrice) (c : ℚ) (hlen : prices.length = 50)
    (hcl : ∀ p ∈ prices, p.closePrice = c) :
    ∃ r, (CalculateAll sqrt prices).2 = some r ∧ r.sma20 = c ∧ r.sma50 = c ∧
      r.rsi = 100 ∧ r.bollingerUpper = c ∧ r.bollingerLower = c ∧
      r.bollingerMid = c := by
  have h50 : ¬ prices.length < 50 := by omega
  have hcloses := closes_of_const prices c hcl
  rw [hlen] at hcloses
  unfold CalculateAll
  rw [if_neg h50]
  have hbb := calculateBollingerBands_replicate sqrt hs 50 20 c 2 (by omega) (by omega)
  refine ⟨_, rfl, ?_, ?_, ?_, ?_, ?_, ?_⟩ <;> simp only [hcloses]
  · exact calculateSMA_replicate 50 20 c (by omega) (by omega)
  · exact calculateSMA_replicate 50 50 c (by omega) (by omega)
  · exact calculateRSI_replicate 50 c (by omega)
  · rw [hbb]
  · rw [hbb]
  · rw [hbb]

/-- C3 (amended): on 50 price points with close constantly 100, SMA20 and
SMA50 are 100 and the Bollinger bands collapse to upper = lower = mid =
100, but the RSI is 100, not 50: a flat series has average loss exactly
zero, and `calculateRSI` saturates to 100 in that case. -/
theorem C3_flat_fifty (sqrt : ℚ → ℚ) (hs : sqrt 0 = 0)
    (prices : List StockPrice) (hlen : prices.length = 50)
    (hcl : ∀ p ∈ prices, p.closePrice = 100) :
    ∃ r, (CalculateAll sqrt prices).2 = some r ∧ r.sma20 = 100 ∧
      r.sma50 = 100 ∧ r.rsi = 100 ∧ r.bollingerUpper = 100 ∧
      r.bollingerLower = 100 ∧ r.bollingerMid = 100 :=
  calculateAll_const_closes sqrt hs prices 100 hlen hcl

theorem C3_counterexample :
    ∃ r, (CalculateAll sqrtZero flat50).2 = some r ∧ r.rsi = 100 ∧
      ¬ r.rsi = 50 := by
  obtain ⟨r, hr, _, _, hrsi, _, _, _⟩ :=
    calculateAll_const_closes sqrtZero rfl flat50 100 (by decide) (by decide)
  exact ⟨r, hr, hrsi, by rw [hrsi]; decide⟩

theorem C3_flat_fifty_witness :
    ∃ r, (CalculateAll sqrtZero flat50).2 = some r ∧ r.sma20 = 100 ∧
      r.sma50 = 100 ∧ r.rsi = 100 ∧ r.bollingerUpper = 100 ∧
      r.bollingerLower = 100 ∧ r.bollingerMid = 100 :=
  C3_flat_fifty sqrtZero rfl flat50 (by decide) (by decide)

theorem rsiGains_nonneg (closes : List ℚ) : ∀ x ∈ rsiGains closes, 0 ≤ x := by
  intro x hx
  unfold rsiGains at hx
  obtain ⟨ch, _, rfl⟩ := List.mem_map.mp hx
  split_ifs with h
  · exact le_of_lt h
  · exact le_refl 0

theorem rsiLosses_nonneg (closes : List ℚ) : ∀ x ∈ rsiLosses closes, 0 ≤ x := by
  intro x hx
  unfold rsiLosses at hx
  obtain ⟨ch, _, rfl⟩ := List.mem_map.mp hx
  split_ifs with h
  · exact le_refl 0
  · have hch : ch ≤ 0 := not_lt.mp h
    linarith

theorem rsiAvgGain_nonneg (closes : List ℚ) (period : ℕ) :
    0 ≤ rsiAvgGain closes period := by
  unfold rsiAvgGain
  exact average_nonneg _ (fun x hx => rsiGains_nonneg closes x (lastN_subset _ _ x hx))

theorem rsiAvgLoss_nonneg (closes : List ℚ) (period : ℕ) :
    0 ≤ rsiAvgLoss closes period := by
  unfold rsiAvgLoss
  exact average_nonneg _ (fun x hx => rsiLosses_nonneg closes x (lastN_subset _ _ x hx))

/-- C5: `calculateRSI` with period 14 always lies in `[0, 100]`; with at
least 15 closes it equals 100 exactly when the trailing average loss is
zero; with fewer than 15 closes it returns the neutral 50. -/
theorem C5_rsi_range_saturation (closes : List ℚ) :
    (0 ≤ calculateRSI closes 14 ∧ calculateRSI closes 14 ≤ 100) ∧
    (15 ≤ closes.length →
      (calculateRSI closes 14 = 100 ↔ rsiAvgLoss closes 14 = 0)) ∧
    (closes.length < 15 → calculateRSI closes 14 = 50) := by
  have hg := rsiAvgGain_nonneg closes 14
  have hl := rsiAvgLoss_nonneg closes 14
  refine ⟨?_, ?_, ?_⟩
  · unfold calculateRSI
    split_ifs with h1 h2 h3
    · norm_num
    · norm_num
    · norm_num
    · dsimp only
      have hlpos : 0 < rsiAvgLoss closes 14 := lt_of_le_of_ne hl (Ne.symm h3)
      have hrs : 0 ≤ rsiAvgGain closes 14 / rsiAvgLoss closes 14 := div_nonneg hg hl
      constructor
      · have hle : 100 / (1 + rsiAvgGain closes 14 / rsiAvgLoss closes 14) ≤ 100 :=
          div_le_self (by norm_num) (by linarith)
        linarith
      · have hpos : 0 < 100 / (1 + rsiAvgGain closes 14 / rsiAvgLoss closes 14) :=
          div_pos (by norm_num) (by linarith)
        linarith
  · intro hlen
    unfold calculateRSI
    rw [if_neg (by omega), if_neg (by rw [rsiGains_length]; omega)]
    split_ifs with h3
    · simp [h3]
    · dsimp only
      constructor
      · intro habs
        have hlpos : 0 < rsiAvgLoss closes 14 := lt_of_le_of_ne hl (Ne.symm h3)
        have hrs : 0 ≤ rsiAvgGain closes 14 / rsiAvgLoss closes 14 := div_nonneg hg hl
        have hpos : 0 < 100 / (1 + rsiAvgGain closes 14 / rsiAvgLoss closes 14) :=
          div_pos (by norm_num) (by linarith)
        linarith
      · intro h0
        exact absurd h0 h3
  · intro hlen
    unfold calculateRSI
    rw [if_pos (by omega)]

theorem C5_rsi_range_saturation_witness :
    (0 ≤ calculateRSI [(1 : ℚ), 2] 14 ∧ calculateRSI [(1 : ℚ), 2] 14 ≤ 100) ∧
    calculateRSI (List.replicate 15 (100 : ℚ)) 14 = 100 ∧
    calculateRSI [(1 : ℚ), 2] 14 = 50 := by
  refine ⟨(C5_rsi_range_saturation [(1 : ℚ), 2]).1, ?_,
    (C5_rsi_range_saturation [(1 : ℚ), 2]).2.2 (by decide)⟩
  exact ((C5_rsi_range_saturation (List.replicate 15 (100 : ℚ))).2.1 (by decide)).mpr
    (rsiAvgLoss_replicate 15 100 (by omega))

/-- C8: on a window whose trailing 14-bar high equals its trailing 14-bar
low, `calculateStochastic` returns the neutral midpoint 50 for %K and
`calculateWilliamsR` returns the neutral midpoint -50: the range division is
guarded and never executed on a zero-width range. -/
theorem C8_flat_range_neutral (highs lows closes : List ℚ)
    (hflat : maxList (lastN 14 highs) = minList (lastN 14 lows)) :
    (calculateStochastic highs lows closes 14 3).1 = 50 ∧
    calculateWilliamsR highs lows closes 14 = -50 := by
  constructor
  · unfold calculateStochastic
    split_ifs with h
    · rfl
    · dsimp only
      rw [hflat, sub_self]
      simp
  · unfold calculateWilliamsR
    split_ifs with h
    · rfl
    · dsimp only
      rw [hflat, sub_self]
      simp

set_option maxRecDepth 4000 in
theorem C8_flat_range_neutral_witness :
    (calculateStochastic (List.replicate 14 (100 : ℚ)) (List.replicate 14 (100 : ℚ))
      (List.replicate 14 (100 : ℚ)) 14 3).1 = 50 ∧
    calculateWilliamsR (List.replicate 14 (100 : ℚ)) (List.replicate 14 (100 : ℚ))
      (List.replicate 14 (100 : ℚ)) 14 = -50 :=
  C8_flat_range_neutral _ _ _ (by decide)

theorem grbs_source (symbol market : String) (indicators : List (String × ℚ)) :
    (generateRuleBasedSignal symbol market indicators).source = "RULE" := rfl

theorem grbs_signalType (symbol market : String) (indicators : List (String × ℚ)) :
    (generateRuleBasedSignal symbol market indicators).signalType =
      (if bullishVotes indicators > bearishVotes indicators then "BUY"
       else if bearishVotes indicators > bullishVotes indicators then "SELL"
       else "HOLD") := by
  by_cases h1 : mapGet indicators "rsi" < 30 <;>
  by_cases h2 : mapGet indicators "rsi" > 70 <;>
  by_cases h3 : mapGet indicators "macd" > 0 <;>
  by_cases h4 : mapGet indicators "sma_20" > mapGet indicators "sma_50" <;>
  first
    | (exfalso; linarith)
    | simp [generateRuleBasedSignal, bullishVotes, bearishVotes, h1, h2, h3, h4]

theorem grbs_confidence (symbol market : String) (indicators : List (String × ℚ)) :
    (generateRuleBasedSignal symbol market indicators).confidence =
      (if bullishVotes indicators = bearishVotes indicators then 0.5 else 0.6) := by
  by_cases h1 : mapGet indicators "rsi" < 30 <;>
  by_cases h2 : mapGet indicators "rsi" > 70 <;>
  by_cases h3 : mapGet indicators "macd" > 0 <;>
  by_cases h4 : mapGet indicators "sma_20" > mapGet indicators "sma_50" <;>
  first
    | (exfalso; linarith)
    | simp [generateRuleBasedSignal, bullishVotes, bearishVotes, h1, h2, h3, h4]

theorem grbs_reasons (symbol market : String) (indicators : List (String × ℚ)) :
    (generateRuleBasedSignal symbol market indicators).reasons =
      "AI service unavailable, using rule-based analysis" ::
      ((if mapGet indicators "rsi" < 30 then ["RSI oversold"]
        else if mapGet indicators "rsi" > 70 then ["RSI overbought"] else []) ++
       (if mapGet indicators "macd" > 0 then ["MACD positive"]
        else ["MACD negative"]) ++
       (if mapGet indicators "sma_20" > mapGet indicators "sma_50"
        then ["SMA20 > SMA50"] else ["SMA20 < SMA50"])) := by
  by_cases h1 : mapGet indicators "rsi" < 30 <;>
  by_cases h2 : mapGet indicators "rsi" > 70 <;>
  by_cases h3 : mapGet indicators "macd" > 0 <;>
  by_cases h4 : mapGet indicators "sma_20" > mapGet indicators "sma_50" <;>
  first
    | (exfalso; linarith)
    | simp [generateRuleBasedSignal, h1, h2, h3, h4]

/-- C6: the rule-based source is exactly the vote count described by the
spec: action is the strict majority side (tie means HOLD), confidence is 0.6
on a majority and 0.5 on a tie, the per-vote narrative reasons are attached,
and the source is marked as the rule fallback. -/
theorem C6_rule_vote_majority (symbol market : String)
    (indicators : List (String × ℚ)) :
    (generateRuleBasedSignal symbol market indicators).signalType =
      (if bullishVotes indicators > bearishVotes indicators then "BUY"
       else if bearishVotes indicators > bullishVotes indicators then "SELL"
       else "HOLD") ∧
    (generateRuleBasedSignal symbol market indicators).confidence =
      (if bullishVotes indicators = bearishVotes indicators then 0.5 else 0.6) ∧
    (generateRuleBasedSignal symbol market indicators).source = "RULE" ∧
    (mapGet indicators "rsi" < 30 →
      "RSI oversold" ∈ (generateRuleBasedSignal symbol market indicators).reasons) ∧
    (mapGet indicators "rsi" > 70 →
      "RSI overbought" ∈ (generateRuleBasedSignal symbol market indicators).reasons) ∧
    (mapGet indicators "macd" > 0 →
      "MACD positive" ∈ (generateRuleBasedSignal symbol market indicators).reasons) ∧
    (¬ mapGet indicators "macd" > 0 →
      "MACD negative" ∈ (generateRuleBasedSignal symbol market indicators).reasons) ∧
    (mapGet indicators "sma_20" > mapGet indicators "sma_50" →
      "SMA20 > SMA50" ∈ (generateRuleBasedSignal symbol market indicators).reasons) ∧
    (¬ mapGet indicators "sma_20" > mapGet indicators "sma_50" →
      "SMA20 < SMA50" ∈ (generateRuleBasedSignal symbol market indicators).reasons) := by
  refine ⟨grbs_signalType symbol market indicators,
    grbs_confidence symbol market indicators,
    grbs_source symbol market indicators, ?_, ?_, ?_, ?_, ?_, ?_⟩
  · intro hc
    rw [grbs_reasons]
    simp [hc]
  · intro hc
    have h30 : ¬ mapGet indicators "rsi" < 30 := by linarith
    rw [grbs_reasons]
    simp [hc, h30]
  · intro hc
    rw [grbs_reasons]
    simp [hc]
  · intro hc
    rw [grbs_reasons]
    simp [hc]
  · intro hc
    rw [grbs_reasons]
    simp [hc]
  · intro hc
    rw [grbs_reasons]
    simp [hc]

theorem C6_rule_vote_majority_witness :
    (generateRuleBasedSignal "A" "KR" demoMap).signalType = "BUY" ∧
    (generateRuleBasedSignal "A" "KR" demoMap).confidence = 0.6 ∧
    (generateRuleBasedSignal "A" "KR" demoMap).source = "RULE" ∧
    "RSI oversold" ∈ (generateRuleBasedSignal "A" "KR" demoMap).reasons := by
  have h := C6_rule_vote_majority "A" "KR" demoMap
  refine ⟨?_, ?_, h.2.2.1, h.2.2.2.1 (by decide)⟩
  · rw [h.1]
    decide
  · rw [h.2.1, if_neg (by decide)]

theorem calculateStrength_bounds (c : ℚ) (m : List (String × ℚ)) (h0 : 0 ≤ c) :
    0 ≤ calculateStrength c m ∧ calculateStrength c m ≤ 1 := by
  unfold calculateStrength
  rcases hu : mapGetOk m "bollinger_upper" with _ | u <;>
  rcases hl : mapGetOk m "bollinger_lower" with _ | l <;>
  rcases ha : mapGetOk m "atr" with _ | a <;>
  dsimp only <;>
  split_ifs <;>
  first
    | (constructor <;> (norm_num; done))
    | (refine ⟨?_, le_of_not_lt (by assumption)⟩ <;>
       first
         | exact h0
         | exact add_nonneg h0 (by norm_num)
         | exact add_nonneg (add_nonneg h0 (by norm_num)) (by norm_num))

theorem calculateSignalStrength_bounds (c : ℚ) :
    0 ≤ calculateSignalStrength c ∧ calculateSignalStrength c ≤ 1 := by
  unfold calculateSignalStrength
  split_ifs <;> constructor <;> norm_num

theorem grbs_bounds (symbol market : String) (m : List (String × ℚ)) :
    0 ≤ (generateRuleBasedSignal symbol market m).confidence ∧
    (generateRuleBasedSignal symbol market m).confidence ≤ 1 ∧
    0 ≤ (generateRuleBasedSignal symbol market m).strength ∧
    (generateRuleBasedSignal symbol market m).strength ≤ 1 := by
  unfold generateRuleBasedSignal
  dsimp only
  split_ifs <;> refine ⟨?_, ?_, ?_, ?_⟩ <;> norm_num

/-- C7: every signal produced by either decision path — the synchronous
`GenerateSignal` (AI or rule fallback) or the queue worker's AI handler —
has confidence and strength in `[0, 1]`, provided the remote service
reports a confidence in `[0, 1]`. -/
theorem C7_confidence_strength_bounds (sqrt : ℚ → ℚ) (symbol market : String)
    (prices : List StockPrice) (aiOutcome : Except String AIDecisionResponse)
    (hai : ∀ r, aiOutcome = Except.ok r → 0 ≤ r.confidence ∧ r.confidence ≤ 1) :
    (∀ s, generateSignal sqrt symbol market prices aiOutcome = Except.ok s →
      0 ≤ s.confidence ∧ s.confidence ≤ 1 ∧ 0 ≤ s.strength ∧ s.strength ≤ 1) ∧
    (∀ lp ind s,
      handleAIRequest symbol market (some lp) (some ind) aiOutcome =
        Except.ok (some s) →
      0 ≤ s.confidence ∧ s.confidence ≤ 1 ∧ 0 ≤ s.strength ∧ s.strength ≤ 1) := by
  constructor
  · intro s hs
    unfold generateSignal at hs
    by_cases h20 : prices.length < 20
    · rw [if_pos h20] at hs
      exact absurd hs (by simp)
    · rw [if_neg h20] at hs
      rcases hca : (CalculateAll sqrt prices).2 with _ | ind
      · rw [hca] at hs
        exact absurd hs (by simp)
      · rw [hca] at hs
        cases aiOutcome with
        | error e =>
          have hseq : generateRuleBasedSignal symbol market (indicatorMap ind) = s := by
            injection hs
          rw [← hseq]
          obtain ⟨a, b, c, d⟩ := grbs_bounds symbol market (indicatorMap ind)
          exact ⟨a, b, c, d⟩
        | ok r =>
          have hr := hai r rfl
          have hseq :
              ({ symbol := symbol, signalType := r.decision,
                 strength := calculateStrength r.confidence (indicatorMap ind),
                 confidence := r.confidence, reasons := r.reasoning,
                 source := "AI" } : TradingSignal) = s := by
            injection hs
          rw [← hseq]
          obtain ⟨a, b⟩ := calculateStrength_bounds r.confidence (indicatorMap ind) hr.1
          exact ⟨hr.1, hr.2, a, b⟩
  · intro lp ind s hs
    unfold handleAIRequest at hs
    cases aiOutcome with
    | error e =>
      exact absurd hs (by simp)
    | ok d =>
      have hd := hai d rfl
      have hseq :
          ({ symbol := symbol, signalType := d.decision,
             strength := calculateSignalStrength d.confidence,
             confidence := d.confidence, reasons := d.reasoning,
             source := "AI" } : TradingSignal) = s := by
        have := hs
        simp only [Except.ok.injEq, Option.some.injEq] at this
        exact this
      rw [← hseq]
      obtain ⟨a, b⟩ := calculateSignalStrength_bounds d.confidence
      exact ⟨hd.1, hd.2, a, b⟩

theorem C7_confidence_strength_bounds_witness :
    0 ≤ (generateRuleBasedSignal "A" "KR" (indicatorMap flatInd)).confidence ∧
    (generateRuleBasedSignal "A" "KR" (indicatorMap flatInd)).confidence ≤ 1 ∧
    0 ≤ (generateRuleBasedSignal "A" "KR" (indicatorMap flatInd)).strength ∧
    (generateRuleBasedSignal "A" "KR" (indicatorMap flatInd)).strength ≤ 1 :=
  (C7_confidence_strength_bounds sqrtZero "A" "KR" flat50 (Except.error "timeout")
      (fun r hr => by simp at hr)).1
    (generateRuleBasedSignal "A" "KR" (indicatorMap flatInd)) rfl

/-- C1 (amended): on the synchronous `GenerateSignal` path a remote error
falls back in-cycle to the rule engine and still persists a signal with
source RULE; the queue worker's AI-request handler does not fall back — a
remote error there ends the cycle with an error (left to broker redelivery)
and no signal. -/
theorem C1_remote_error_rule_fallback (sqrt : ℚ → ℚ) (symbol market err : String)
    (prices : List StockPrice) (h : 50 ≤ prices.length) :
    (∃ s, generateSignal sqrt symbol market prices (Except.error err) =
        Except.ok s ∧ s.source = "RULE") ∧
    (∀ lp ind, handleAIRequest symbol market (some lp) (some ind)
        (Except.error err) = Except.error err) := by
  constructor
  · rcases hca : (CalculateAll sqrt prices).2 with _ | ind
    · exact absurd ((calculateAll_eq_none_iff sqrt prices).mp hca) (by omega)
    · refine ⟨generateRuleBasedSignal symbol market (indicatorMap ind), ?_,
        grbs_source symbol market (indicatorMap ind)⟩
      unfold generateSignal
      rw [if_neg (by omega), hca]
  · intro lp ind
    rfl

theorem C1_counterexample :
    handleAIRequest "A" "KR" (some flatPrice) (some (indicatorMap flatInd))
      (Except.error "timeout") = Except.error "timeout" := rfl

theorem C1_remote_error_rule_fallback_witness :
    (∃ s, generateSignal sqrtZero "A" "KR" flat50 (Except.error "timeout") =
        Except.ok s ∧ s.source = "RULE") ∧
    handleAIRequest "A" "KR" (some flatPrice) (some (indicatorMap flatInd))
      (Except.error "timeout") = Except.error "timeout" :=
  ⟨(C1_remote_error_rule_fallback sqrtZero "A" "KR" "timeout" flat50 (by decide)).1,
   (C1_remote_error_rule_fallback sqrtZero "A" "KR" "timeout" flat50 (by decide)).2
     flatPrice (indicatorMap flatInd)⟩

/-- C10: with at least 20 but fewer than 50 price rows, `GenerateSignal`
passes its own 20-row guard but the indicator engine returns `nil`, so the
cycle ends with the "failed to calculate indicators" error and no signal is
persisted. -/
theorem C10_indicator_gap_errors (sqrt : ℚ → ℚ) (symbol market : String)
    (prices : List StockPrice) (aiOutcome : Except String AIDecisionResponse)
    (h20 : 20 ≤ prices.length) (h50 : prices.length < 50) :
    generateSignal sqrt symbol market prices aiOutcome =
      Except.error ("failed to calculate indicators for " ++ symbol) := by
  unfold generateSignal
  rw [if_neg (by omega), (calculateAll_eq_none_iff sqrt prices).mpr h50]

theorem C10_indicator_gap_errors_witness :
    generateSignal sqrtZero "A" "KR" mid30 (Except.error "timeout") =
      Except.error ("failed to calculate indicators for " ++ "A") :=
  C10_indicator_gap_errors sqrtZero "A" "KR" mid30 (Except.error "timeout")
    (by decide) (by decide)

end StockRec
